import Mathlib

/-!
Shallow embedding of the roll-off roof controller firmware
(src/arduino-firmware/RoofController/RoofController.ino) and proofs about it.

Modelling conventions:
* Pin logic levels are booleans, `HIGH = true`, `LOW = false`.
* The two relay outputs are active-low: a relay is energized exactly when its
  output pin is at `LOW`.
* Sensor reads (`digitalRead` of the two limit switches and the two telescope
  park pins) are sampled fresh from an `Env` record at each evaluation,
  mirroring the firmware's uncached polling.
* `millis` is an ideal monotone millisecond clock held in the state; `delay`
  and the busy-wait pulse advance it by their nominal durations (1000 ms
  settle, 800 ms pulse).
* The motor routines return, besides the updated state, the timed sequence of
  relay-pin snapshots produced by their `digitalWrite` calls, so that
  properties can be checked at every sampled instant inside a direction
  change, not only at tick boundaries.
* The LED code (`handleLEDs`, `toggleLed`) only touches the LED pin and its
  own blink bookkeeping; it is omitted as it does not interact with the roof
  state, the relays, or timing of the core.
-/

namespace RoofController

/-- Arduino logic level HIGH. -/
def HIGH : Bool := true

/-- Arduino logic level LOW. -/
def LOW : Bool := false

/-- Roof state constant: source line 39, `const int roofClosed = 0`. -/
def roofClosed : Int := 0

/-- Roof state constant: source line 40, `const int roofOpen = 1`. -/
def roofOpen : Int := 1

/-- Roof state constant: source line 41, `const int roofStopped = 2`. -/
def roofStopped : Int := 2

/-- Roof state constant: source line 42, `const int roofClosing = 3`. -/
def roofClosing : Int := 3

/-- Roof state constant: source line 43, `const int roofOpening = 4`. -/
def roofOpening : Int := 4

/-- Output levels of the two motor-direction relay pins
(`pinRelayOpen` = pin 3, `pinRelayClose` = pin 2). -/
structure Pins where
  relayOpen : Bool
  relayClose : Bool
deriving DecidableEq

/-- Both relay pins at HIGH: both relays de-energized (the safe rest level). -/
def pinsHigh : Pins := { relayOpen := HIGH, relayClose := HIGH }

/-- One sample of the four input pins.  `limitSwitchOpen`/`limitSwitchClose`
read HIGH when the corresponding end-of-travel switch is asserted;
`parkTelescopeRA`/`parkTelescopeDEC` are active-low (INPUT_PULLUP): LOW means
the axis is parked. -/
structure Env where
  limitSwitchOpen : Bool
  limitSwitchClose : Bool
  parkTelescopeRA : Bool
  parkTelescopeDEC : Bool
deriving DecidableEq

/-- The firmware's mutable globals relevant to the core, plus the clock and
the current relay-pin output levels. -/
structure St where
  roofState : Int
  previousRoofState : Int
  hoistOnTime : Nat
  millis : Nat
  pins : Pins
deriving DecidableEq

/-- `motorOff` (source lines 148-152): drive both relay pins HIGH, then
`delay(1000)`.  Returns the updated state and the timed pin snapshots of its
two `digitalWrite` calls. -/
def motorOff (s : St) : St × List (Nat × Pins) :=
  let p1 : Pins := { s.pins with relayOpen := HIGH }
  let p2 : Pins := { p1 with relayClose := HIGH }
  ({ s with pins := p2, millis := s.millis + 1000 },
   [(s.millis, p1), (s.millis, p2)])

/-- `motorReverse` (source lines 157-167, invoked for Closing): `motorOff()`,
pulse `pinRelayOpen` LOW for the 800 ms busy-wait window, return it HIGH,
then record `hoistOnTime = millis()`. -/
def motorReverse (s : St) : St × List (Nat × Pins) :=
  let off := motorOff s
  let s1 := off.1
  let p1 : Pins := { s1.pins with relayOpen := LOW }
  let s2 : St := { s1 with pins := p1, millis := s1.millis + 800 }
  let p2 : Pins := { p1 with relayOpen := HIGH }
  let s3 : St := { s2 with pins := p2, hoistOnTime := s2.millis }
  (s3, off.2 ++ [(s1.millis, p1), (s2.millis, p2)])

/-- `motorFwd` (source lines 172-181, invoked for Opening): `motorOff()`,
pulse `pinRelayClose` LOW for the 800 ms busy-wait window, return it HIGH,
then record `hoistOnTime = millis()`. -/
def motorFwd (s : St) : St × List (Nat × Pins) :=
  let off := motorOff s
  let s1 := off.1
  let p1 : Pins := { s1.pins with relayClose := LOW }
  let s2 : St := { s1 with pins := p1, millis := s1.millis + 800 }
  let p2 : Pins := { p1 with relayClose := HIGH }
  let s3 : St := { s2 with pins := p2, hoistOnTime := s2.millis }
  (s3, off.2 ++ [(s1.millis, p1), (s2.millis, p2)])

/-- `stringCallback` (source lines 87-125): dispatch on the command string.
Returns the updated state and the list of reply strings sent via
`Firmata.sendString`.  Note the unconditional assignments at source lines
100 and 108: after the park-interlock check, `roofState` is set to
`roofOpening`/`roofClosing` regardless of the check's outcome. -/
def stringCallback (myString : String) (env : Env) (s : St) : St × List String :=
  if myString = "OPEN" then
    let first :=
      if env.parkTelescopeRA = LOW ∧ env.parkTelescopeDEC = LOW then
        ({ s with roofState := roofOpening }, ([] : List String))
      else
        (s, ["NOTELESCOPEPARK"])
    ({ first.1 with roofState := roofOpening }, first.2)
  else if myString = "CLOSE" then
    let first :=
      if env.parkTelescopeRA = LOW ∧ env.parkTelescopeDEC = LOW then
        ({ s with roofState := roofClosing }, ([] : List String))
      else
        (s, ["NOTELESCOPEPARK"])
    ({ first.1 with roofState := roofClosing }, first.2)
  else if myString = "ABORT" then
    ({ s with roofState := roofStopped }, [])
  else if myString = "QUERY" then
    if env.parkTelescopeRA ≠ LOW ∧ env.parkTelescopeDEC ≠ LOW then
      (s, ["NOTELESCOPEPARK"])
    else
      if env.limitSwitchOpen = HIGH ∧ env.limitSwitchClose = LOW then
        (s, ["OPEN"])
      else if env.limitSwitchClose = HIGH ∧ env.limitSwitchOpen = LOW then
        (s, ["CLOSED"])
      else
        (s, ["UNKNOWN"])
  else
    (s, [])

/-- `roofMotorRunDuration` (source lines 186-192): milliseconds since
`hoistOnTime` while in a motion state, else 0. -/
def roofMotorRunDuration (s : St) : Int :=
  if s.roofState = roofOpening ∨ s.roofState = roofClosing then
    (s.millis : Int) - (s.hoistOnTime : Int)
  else
    0

/-- `safetyCutout` (source lines 195-201): after more than 20000 ms of
motion, force `roofStopped` when the limit switch of the current direction
reads HIGH. -/
def safetyCutout (env : Env) (s : St) : St :=
  if roofMotorRunDuration s > 20000 then
    if (s.roofState = roofOpening ∧ env.limitSwitchOpen = HIGH) ∨
       (s.roofState = roofClosing ∧ env.limitSwitchClose = HIGH) then
      { s with roofState := roofStopped }
    else s
  else s

/-- `handleState` (source lines 130-143): run the safety cutout, then on a
state change record the new state into `previousRoofState` and fire the
matching motor routine.  (`handleLEDs` is omitted; see the file header.)
Returns the updated state and the timed relay-pin snapshots written during
this tick. -/
def handleState (env : Env) (s : St) : St × List (Nat × Pins) :=
  let s1 := safetyCutout env s
  if s1.roofState ≠ s1.previousRoofState then
    let s2 : St := { s1 with previousRoofState := s1.roofState }
    if s2.roofState = roofOpening then motorFwd s2
    else if s2.roofState = roofClosing then motorReverse s2
    else motorOff s2
  else
    (s1, [])

/-- State at the end of `setup()` (source lines 54-71): both states
`roofStopped`, `hoistOnTime = 0`, and `motorOff()` has been run, so both
relay pins are HIGH and the clock has advanced through its 1000 ms delay. -/
def initSt : St :=
  { roofState := roofStopped
    previousRoofState := roofStopped
    hoistOnTime := 0
    millis := 1000
    pins := pinsHigh }

/-- One step of the firmware after setup: either `stringCallback` runs on a
received string (with fresh sensor samples from `env`), or `handleState`
runs as part of `loop()`, or the clock advances while nothing happens. -/
inductive Step : St → St → Prop where
  | cmd (c : String) (env : Env) (s : St) : Step s (stringCallback c env s).1
  | tick (env : Env) (s : St) : Step s (handleState env s).1
  | advance (d : Nat) (s : St) : Step s { s with millis := s.millis + d }

/-- States reachable from the post-setup state by any sequence of received
commands, loop ticks, and clock advances. -/
inductive Reach : St → Prop where
  | init : Reach initSt
  | step {s t : St} : Reach s → Step s t → Reach t

/-- At most one relay energized: at least one of the two active-low relay
pins is at HIGH. -/
def relaySafe (p : Pins) : Prop := p.relayOpen = HIGH ∨ p.relayClose = HIGH

/-! ### Elementary lemmas about the motor routines -/

lemma motorOff_fst (s : St) :
    (motorOff s).1 = { s with pins := pinsHigh, millis := s.millis + 1000 } := rfl

lemma motorFwd_fst (s : St) :
    (motorFwd s).1 =
      { s with pins := pinsHigh, millis := s.millis + 1800,
               hoistOnTime := s.millis + 1800 } := rfl

lemma motorReverse_fst (s : St) :
    (motorReverse s).1 =
      { s with pins := pinsHigh, millis := s.millis + 1800,
               hoistOnTime := s.millis + 1800 } := rfl

lemma motorOff_snd (s : St) :
    (motorOff s).2 =
      [(s.millis, { relayOpen := HIGH, relayClose := s.pins.relayClose }),
       (s.millis, pinsHigh)] := rfl

lemma motorFwd_snd (s : St) :
    (motorFwd s).2 =
      [(s.millis, { relayOpen := HIGH, relayClose := s.pins.relayClose }),
       (s.millis, pinsHigh),
       (s.millis + 1000, { relayOpen := HIGH, relayClose := LOW }),
       (s.millis + 1800, pinsHigh)] := rfl

lemma motorReverse_snd (s : St) :
    (motorReverse s).2 =
      [(s.millis, { relayOpen := HIGH, relayClose := s.pins.relayClose }),
       (s.millis, pinsHigh),
       (s.millis + 1000, { relayOpen := LOW, relayClose := HIGH }),
       (s.millis + 1800, pinsHigh)] := rfl

/-! ### Field preservation lemmas -/

/-- Zeta-reduced form of `handleState`, convenient for case splitting. -/
lemma handleState_eq (env : Env) (s : St) :
    handleState env s =
      (if (safetyCutout env s).roofState ≠ (safetyCutout env s).previousRoofState then
        (if (safetyCutout env s).roofState = roofOpening then
          motorFwd { safetyCutout env s with previousRoofState := (safetyCutout env s).roofState }
        else if (safetyCutout env s).roofState = roofClosing then
          motorReverse { safetyCutout env s with previousRoofState := (safetyCutout env s).roofState }
        else
          motorOff { safetyCutout env s with previousRoofState := (safetyCutout env s).roofState })
      else (safetyCutout env s, [])) := rfl

lemma stringCallback_pins (c : String) (env : Env) (s : St) :
    (stringCallback c env s).1.pins = s.pins := by
  unfold stringCallback
  split_ifs <;> rfl

lemma stringCallback_roofState (c : String) (env : Env) (s : St) :
    (stringCallback c env s).1.roofState = s.roofState ∨
    (stringCallback c env s).1.roofState = roofStopped ∨
    (stringCallback c env s).1.roofState = roofOpening ∨
    (stringCallback c env s).1.roofState = roofClosing := by
  unfold stringCallback
  split_ifs <;> simp

lemma safetyCutout_pins (env : Env) (s : St) :
    (safetyCutout env s).pins = s.pins := by
  unfold safetyCutout
  split_ifs <;> rfl

lemma safetyCutout_roofState (env : Env) (s : St) :
    (safetyCutout env s).roofState = s.roofState ∨
    (safetyCutout env s).roofState = roofStopped := by
  unfold safetyCutout
  split_ifs <;> simp

lemma handleState_pins (env : Env) (s : St) :
    (handleState env s).1.pins = pinsHigh ∨ (handleState env s).1.pins = s.pins := by
  rw [handleState_eq]
  split_ifs <;>
    simp [motorFwd_fst, motorReverse_fst, motorOff_fst, safetyCutout_pins]

lemma handleState_roofState (env : Env) (s : St) :
    (handleState env s).1.roofState = s.roofState ∨
    (handleState env s).1.roofState = roofStopped := by
  rw [handleState_eq]
  split_ifs <;>
    simp [motorFwd_fst, motorReverse_fst, motorOff_fst, safetyCutout_roofState env s]

/-! ### Reachability invariants -/

lemma reach_pins {u : St} (h : Reach u) : u.pins = pinsHigh := by
  induction h with
  | init => rfl
  | @step s t hr hstep ih =>
    cases hstep with
    | cmd c env => rw [stringCallback_pins]; exact ih
    | tick env =>
      rcases handleState_pins env s with h1 | h1
      · exact h1
      · rw [h1]; exact ih
    | advance d => exact ih

lemma motorOff_trace_safe (s : St) : ∀ q ∈ (motorOff s).2, relaySafe q.2 := by
  intro q hq
  rw [motorOff_snd] at hq
  simp only [List.mem_cons, List.not_mem_nil, or_false] at hq
  rcases hq with h | h <;> subst h <;> exact Or.inl rfl

lemma motorFwd_trace_safe (s : St) : ∀ q ∈ (motorFwd s).2, relaySafe q.2 := by
  intro q hq
  rw [motorFwd_snd] at hq
  simp only [List.mem_cons, List.not_mem_nil, or_false] at hq
  rcases hq with h | h | h | h <;> subst h <;> exact Or.inl rfl

lemma motorReverse_trace_safe (s : St) : ∀ q ∈ (motorReverse s).2, relaySafe q.2 := by
  intro q hq
  rw [motorReverse_snd] at hq
  simp only [List.mem_cons, List.not_mem_nil, or_false] at hq
  rcases hq with h | h | h | h <;> subst h
  · exact Or.inl rfl
  · exact Or.inl rfl
  · exact Or.inr rfl
  · exact Or.inl rfl

lemma handleState_trace_safe (env : Env) (s : St) :
    ∀ q ∈ (handleState env s).2, relaySafe q.2 := by
  rw [handleState_eq]
  split_ifs with h1 h2 h3
  · exact motorFwd_trace_safe _
  · exact motorReverse_trace_safe _
  · exact motorOff_trace_safe _
  · intro q hq
    simp at hq

lemma roofMotorRunDuration_stopped (s : St) (h1 : s.roofState = roofStopped) :
    roofMotorRunDuration s = 0 := by
  unfold roofMotorRunDuration
  rw [if_neg (by rw [h1]; decide)]

lemma safetyCutout_of_not_running (env : Env) (s : St)
    (h : ¬(roofMotorRunDuration s > 20000)) : safetyCutout env s = s := by
  unfold safetyCutout
  rw [if_neg h]

/-- A tick from a settled `Stopped` state changes nothing and writes no relay pin. -/
lemma handleState_stopped (env : Env) (s : St)
    (h1 : s.roofState = roofStopped) (h2 : s.previousRoofState = roofStopped) :
    handleState env s = (s, []) := by
  rw [handleState_eq,
    safetyCutout_of_not_running env s (by rw [roofMotorRunDuration_stopped s h1]; decide),
    if_neg (fun hne => hne (h1.trans h2.symm))]

/-! ### Named sensor environments used in concrete instantiations -/

/-- No limit switch asserted, both telescope axes parked. -/
def envParked : Env := Env.mk LOW LOW LOW LOW

/-- No limit switch asserted, RA axis not parked. -/
def envRAUnparked : Env := Env.mk LOW LOW HIGH LOW

/-- No limit switch asserted, both axes not parked. -/
def envBothUnparked : Env := Env.mk LOW LOW HIGH HIGH

/-- Open limit asserted, both axes parked. -/
def envOpenLimit : Env := Env.mk HIGH LOW LOW LOW

/-- Open limit asserted, RA axis not parked, DEC axis parked. -/
def envOpenLimitRAUnparked : Env := Env.mk HIGH LOW HIGH LOW

/-! ### Claim theorems -/

/-- C3: an OPEN (resp. CLOSE) command received while the park interlock is
not satisfied (at least one park sensor reading not-parked, i.e. HIGH) emits
the NOTELESCOPEPARK reply and nevertheless still moves the state to
`roofOpening` (resp. `roofClosing`): the interlock is advisory only. -/
theorem open_close_interlock_advisory (env : Env) (s : St)
    (h : env.parkTelescopeRA = HIGH ∨ env.parkTelescopeDEC = HIGH) :
    (stringCallback "OPEN" env s).2 = ["NOTELESCOPEPARK"] ∧
    (stringCallback "OPEN" env s).1.roofState = roofOpening ∧
    (stringCallback "CLOSE" env s).2 = ["NOTELESCOPEPARK"] ∧
    (stringCallback "CLOSE" env s).1.roofState = roofClosing := by
  obtain ⟨a, b, c, d⟩ := env
  cases c <;> cases d
  · exfalso
    rcases h with h | h <;> exact Bool.noConfusion h
  · exact ⟨rfl, rfl, rfl, rfl⟩
  · exact ⟨rfl, rfl, rfl, rfl⟩
  · exact ⟨rfl, rfl, rfl, rfl⟩

/-- C3 witness: concrete instance with the RA axis not parked. -/
theorem open_close_interlock_advisory_witness :
    (stringCallback "OPEN" envRAUnparked initSt).2 = ["NOTELESCOPEPARK"] ∧
    (stringCallback "OPEN" envRAUnparked initSt).1.roofState = roofOpening ∧
    (stringCallback "CLOSE" envRAUnparked initSt).2 = ["NOTELESCOPEPARK"] ∧
    (stringCallback "CLOSE" envRAUnparked initSt).1.roofState = roofClosing :=
  open_close_interlock_advisory envRAUnparked initSt (Or.inl rfl)

/-- C5 counterexample: with the RA axis not parked but the DEC axis parked
(the park interlock is not satisfied), a QUERY is answered from the limit
switches ("OPEN" here), not with NOTELESCOPEPARK: the firmware only sends
NOTELESCOPEPARK on QUERY when BOTH park sensors read not-parked. -/
theorem query_notelescopepark_cex :
    envOpenLimitRAUnparked.parkTelescopeRA = HIGH ∧
    (stringCallback "QUERY" envOpenLimitRAUnparked initSt).2 = ["OPEN"] ∧
    (stringCallback "QUERY" envOpenLimitRAUnparked initSt).2 ≠ ["NOTELESCOPEPARK"] := by
  exact ⟨rfl, rfl, by decide⟩

/-- C5 amended: a QUERY processed while BOTH park sensors read not-parked
(HIGH) is answered NOTELESCOPEPARK, taking priority over any
limit-switch-derived reply. -/
theorem query_notelescopepark_when_both_unparked (env : Env) (s : St)
    (h1 : env.parkTelescopeRA = HIGH) (h2 : env.parkTelescopeDEC = HIGH) :
    (stringCallback "QUERY" env s).2 = ["NOTELESCOPEPARK"] := by
  obtain ⟨a, b, c, d⟩ := env
  cases c <;> cases d
  · exact Bool.noConfusion h1
  · exact Bool.noConfusion h1
  · exact Bool.noConfusion h2
  · rfl

/-- C5 witness: concrete instance with both axes not parked. -/
theorem query_notelescopepark_when_both_unparked_witness :
    (stringCallback "QUERY" envBothUnparked initSt).2 = ["NOTELESCOPEPARK"] :=
  query_notelescopepark_when_both_unparked envBothUnparked initSt rfl rfl

/-- C6: a QUERY processed while the park interlock is satisfied (both park
sensors LOW) replies OPEN when only the open limit is asserted, CLOSED when
only the close limit is asserted, and UNKNOWN when both or neither are. -/
theorem query_limit_switch_replies (env : Env) (s : St)
    (h1 : env.parkTelescopeRA = LOW) (h2 : env.parkTelescopeDEC = LOW) :
    ((env.limitSwitchOpen = HIGH ∧ env.limitSwitchClose = LOW) →
      (stringCallback "QUERY" env s).2 = ["OPEN"]) ∧
    ((env.limitSwitchClose = HIGH ∧ env.limitSwitchOpen = LOW) →
      (stringCallback "QUERY" env s).2 = ["CLOSED"]) ∧
    ((env.limitSwitchOpen = HIGH ∧ env.limitSwitchClose = HIGH) →
      (stringCallback "QUERY" env s).2 = ["UNKNOWN"]) ∧
    ((env.limitSwitchOpen = LOW ∧ env.limitSwitchClose = LOW) →
      (stringCallback "QUERY" env s).2 = ["UNKNOWN"]) := by
  obtain ⟨a, b, c, d⟩ := env
  cases c
  · cases d
    · cases a <;> cases b <;>
        refine ⟨?_, ?_, ?_, ?_⟩ <;> intro hx <;>
        first
          | rfl
          | exact Bool.noConfusion hx.1
          | exact Bool.noConfusion hx.2
    · exact Bool.noConfusion h2
  · exact Bool.noConfusion h1

/-- C6 witness: open limit asserted alone, both axes parked, reply OPEN. -/
theorem query_limit_switch_replies_witness :
    (stringCallback "QUERY" envOpenLimit initSt).2 = ["OPEN"] :=
  (query_limit_switch_replies envOpenLimit initSt rfl rfl).1 ⟨rfl, rfl⟩

/-- C7: the QUERY reply depends only on the four sensor readings, never on
the controller state, and processing a QUERY leaves the state unchanged. -/
theorem query_pure_of_sensors (env : Env) (s1 s2 : St) :
    (stringCallback "QUERY" env s1).2 = (stringCallback "QUERY" env s2).2 ∧
    (stringCallback "QUERY" env s1).1 = s1 := by
  obtain ⟨a, b, c, d⟩ := env
  cases a <;> cases b <;> cases c <;> cases d <;> exact ⟨rfl, rfl⟩

/-- C8: ABORT always forces `roofStopped`; an ABORT received in a settled
Stopped state changes nothing, emits nothing, and the following tick detects
no state change and performs no relay write. -/
theorem abort_stop_idempotent (env env2 e : Env) (s t : St)
    (h1 : s.roofState = roofStopped) (h2 : s.previousRoofState = roofStopped) :
    (stringCallback "ABORT" e t).1.roofState = roofStopped ∧
    (stringCallback "ABORT" env s).1 = s ∧
    (stringCallback "ABORT" env s).2 = [] ∧
    handleState env2 (stringCallback "ABORT" env s).1 =
      ((stringCallback "ABORT" env s).1, []) := by
  refine ⟨rfl, ?_, rfl, handleState_stopped env2 _ rfl h2⟩
  have hs : (stringCallback "ABORT" env s).1 = { s with roofState := roofStopped } := rfl
  rw [hs, ← h1]

/-- C8 witness: concrete settled-Stopped instance. -/
theorem abort_stop_idempotent_witness :
    (stringCallback "ABORT" envParked initSt).1.roofState = roofStopped ∧
    (stringCallback "ABORT" envParked initSt).1 = initSt ∧
    (stringCallback "ABORT" envParked initSt).2 = [] ∧
    handleState envParked (stringCallback "ABORT" envParked initSt).1 =
      ((stringCallback "ABORT" envParked initSt).1, []) :=
  abort_stop_idempotent envParked envParked envParked initSt initSt rfl rfl

/-- C9: any command string other than the four recognized ones leaves the
whole controller state unchanged and emits no reply. -/
theorem unrecognized_command_ignored (c : String) (env : Env) (s : St)
    (h1 : c ≠ "OPEN") (h2 : c ≠ "CLOSE") (h3 : c ≠ "ABORT") (h4 : c ≠ "QUERY") :
    stringCallback c env s = (s, []) := by
  unfold stringCallback
  rw [if_neg h1, if_neg h2, if_neg h3, if_neg h4]

/-- C9 witness: the lower-case string "open" is not recognized. -/
theorem unrecognized_command_ignored_witness :
    stringCallback "open" envParked initSt = (initSt, []) :=
  unrecognized_command_ignored "open" envParked initSt
    (by decide) (by decide) (by decide) (by decide)

/-- C1: in every reachable state at most one relay is energized (in fact
both pins rest at HIGH), and every relay-pin write sampled during any tick
from a reachable state — including the both-off settle and the 800 ms pulse
of a direction change — leaves at least one pin at HIGH. -/
theorem relay_mutual_exclusion (u : St) (h : Reach u) :
    relaySafe u.pins ∧
    ∀ (env : Env), ∀ q ∈ (handleState env u).2, relaySafe q.2 := by
  refine ⟨?_, fun env => handleState_trace_safe env u⟩
  rw [reach_pins h]
  exact Or.inl rfl

/-- C1 witness: the invariant at the post-setup state. -/
theorem relay_mutual_exclusion_witness : relaySafe initSt.pins :=
  (relay_mutual_exclusion initSt Reach.init).1

/-- C10: after boot `roofState` only ever takes the values `roofStopped`,
`roofOpening` or `roofClosing`; the declared `roofClosed` and `roofOpen`
values are never assigned, so they are unreachable. -/
theorem roofState_reachable_values (u : St) (h : Reach u) :
    (u.roofState = roofStopped ∨ u.roofState = roofOpening ∨
      u.roofState = roofClosing) ∧
    u.roofState ≠ roofClosed ∧ u.roofState ≠ roofOpen := by
  have key : u.roofState = roofStopped ∨ u.roofState = roofOpening ∨
      u.roofState = roofClosing := by
    induction h with
    | init => exact Or.inl rfl
    | @step s t hr hstep ih =>
      cases hstep with
      | cmd c env =>
        rcases stringCallback_roofState c env s with h1 | h1 | h1 | h1
        · rw [h1]; exact ih
        · rw [h1]; exact Or.inl rfl
        · rw [h1]; exact Or.inr (Or.inl rfl)
        · rw [h1]; exact Or.inr (Or.inr rfl)
      | tick env =>
        rcases handleState_roofState env s with h1 | h1
        · rw [h1]; exact ih
        · rw [h1]; exact Or.inl rfl
      | advance d => exact ih
  refine ⟨key, ?_, ?_⟩ <;> rcases key with h1 | h1 | h1 <;> rw [h1] <;> decide

/-- C10 witness: the invariant at the post-setup state. -/
theorem roofState_reachable_values_witness :
    (initSt.roofState = roofStopped ∨ initSt.roofState = roofOpening ∨
      initSt.roofState = roofClosing) ∧
    initSt.roofState ≠ roofClosed ∧ initSt.roofState ≠ roofOpen :=
  roofState_reachable_values initSt Reach.init

/-- Environment for the C2 counterexample: neither limit switch asserted. -/
def cutoutCexEnv : Env := Env.mk LOW LOW LOW LOW

/-- State for C2 instantiations: Opening, motion started at 1000 ms, clock
now 22001 ms, so the motor has run 21001 ms, past the 20000 ms bound. -/
def cutoutCexSt : St :=
  { roofState := roofOpening
    previousRoofState := roofOpening
    hoistOnTime := 1000
    millis := 22001
    pins := pinsHigh }

/-- C2 counterexample: in state Opening with 21001 ms elapsed and the open
limit switch NOT asserted, the tick leaves the state at `roofOpening`
instead of forcing `roofStopped`: the cutout at source line 197 fires only
when the limit switch reads HIGH, the opposite guard of the claim. -/
theorem safety_cutout_claim_cex :
    cutoutCexSt.roofState = roofOpening ∧
    roofMotorRunDuration cutoutCexSt > 20000 ∧
    cutoutCexEnv.limitSwitchOpen = LOW ∧
    (handleState cutoutCexEnv cutoutCexSt).1.roofState = roofOpening ∧
    roofOpening ≠ roofStopped := by decide

/-- C2 amended: if the motor has run for more than 20000 ms in Opening
(resp. Closing) and the corresponding limit switch IS asserted (reads HIGH),
the tick forces `roofStopped` and leaves both relays de-energized (the pins
hypothesis records the rest level every reachable state has). -/
theorem safety_cutout_fires_on_limit (env : Env) (s : St)
    (hdur : roofMotorRunDuration s > 20000)
    (hdir : (s.roofState = roofOpening ∧ env.limitSwitchOpen = HIGH) ∨
            (s.roofState = roofClosing ∧ env.limitSwitchClose = HIGH))
    (hpins : s.pins = pinsHigh) :
    (handleState env s).1.roofState = roofStopped ∧
    (handleState env s).1.pins = pinsHigh := by
  have hcut : safetyCutout env s = { s with roofState := roofStopped } := by
    unfold safetyCutout
    rw [if_pos hdur, if_pos hdir]
  rw [handleState_eq, hcut]
  by_cases hprev : s.previousRoofState = roofStopped
  · rw [if_neg (fun hne => hne hprev.symm)]
    exact ⟨rfl, hpins⟩
  · rw [if_pos (fun heq => hprev heq.symm)]
    exact ⟨rfl, rfl⟩

/-- Environment for the C2 witness: open limit switch asserted. -/
def cutoutWitEnv : Env := Env.mk HIGH LOW LOW LOW

/-- C2 witness: Opening for 21001 ms with the open limit asserted. -/
theorem safety_cutout_fires_on_limit_witness :
    (handleState cutoutWitEnv cutoutCexSt).1.roofState = roofStopped ∧
    (handleState cutoutWitEnv cutoutCexSt).1.pins = pinsHigh :=
  safety_cutout_fires_on_limit cutoutWitEnv cutoutCexSt
    (by decide) (by decide) (by decide)

/-- Environment for the C4 instantiations: nothing asserted, both parked. -/
def openingCexEnv : Env := Env.mk LOW LOW LOW LOW

/-- State for the C4 instantiations: the tick is about to detect the change
from `roofStopped` to `roofOpening` (as left by an OPEN command). -/
def openingCexSt : St :=
  { roofState := roofOpening
    previousRoofState := roofStopped
    hoistOnTime := 0
    millis := 1000
    pins := pinsHigh }

/-- C4 counterexample: on a tick detecting a change into Opening, the trace
of relay writes keeps `pinRelayOpen` at HIGH throughout — the open-direction
relay is never energized; instead `pinRelayClose` is pulsed LOW at 2000 ms
(after the 1000 ms settle), and `hoistOnTime` is recorded as 2800 ms, the
end of the pulse, not the 2000 ms energization instant. -/
theorem opening_pulse_claim_cex :
    openingCexSt.roofState = roofOpening ∧
    openingCexSt.previousRoofState ≠ roofOpening ∧
    (handleState openingCexEnv openingCexSt).2 =
      [(1000, pinsHigh), (1000, pinsHigh),
       (2000, { relayOpen := HIGH, relayClose := LOW }),
       (2800, pinsHigh)] ∧
    (handleState openingCexEnv openingCexSt).1.hoistOnTime = 2800 := by decide

/-- A safety cutout evaluation either leaves the state alone or only forces
`roofStopped`. -/
lemma safetyCutout_cases (env : Env) (s : St) :
    safetyCutout env s = s ∨
    safetyCutout env s = { s with roofState := roofStopped } := by
  unfold safetyCutout
  split_ifs <;> simp

/-- C4 amended: whenever a tick detects a state change into Opening — the
state as left by the safety cutout is `roofOpening` and differs from
`previousRoofState`, the exact test of source line 133 — `motorFwd` runs:
both pins are first driven HIGH, held through the 1000 ms settle, then
`pinRelayClose` — not the open-direction pin, which stays HIGH throughout —
is energized (LOW) alone for the 800 ms pulse window and immediately
returned HIGH, and `hoistOnTime` is recorded at the end of the pulse. -/
theorem opening_tick_pulses_close_pin (env : Env) (s : St)
    (hst : (safetyCutout env s).roofState = roofOpening)
    (hprev : s.previousRoofState ≠ roofOpening) :
    (handleState env s).2 =
      [(s.millis, { relayOpen := HIGH, relayClose := s.pins.relayClose }),
       (s.millis, pinsHigh),
       (s.millis + 1000, { relayOpen := HIGH, relayClose := LOW }),
       (s.millis + 1800, pinsHigh)] ∧
    (handleState env s).1.hoistOnTime = s.millis + 1800 ∧
    (handleState env s).1.pins = pinsHigh ∧
    (handleState env s).1.roofState = roofOpening ∧
    (handleState env s).1.previousRoofState = roofOpening := by
  have hcut : safetyCutout env s = s := by
    rcases safetyCutout_cases env s with h | h
    · exact h
    · rw [h] at hst
      exact absurd (show (2 : Int) = 4 from hst) (by decide)
  rw [hcut] at hst
  rw [handleState_eq, hcut]
  rw [if_pos (by rw [hst]; exact fun hh => hprev hh.symm)]
  rw [if_pos hst]
  exact ⟨rfl, rfl, rfl, hst, hst⟩

/-- C4 witness: concrete tick entering Opening from Stopped at 1000 ms. -/
theorem opening_tick_pulses_close_pin_witness :
    (handleState openingCexEnv openingCexSt).2 =
      [(1000, pinsHigh), (1000, pinsHigh),
       (2000, { relayOpen := HIGH, relayClose := LOW }),
       (2800, pinsHigh)] ∧
    (handleState openingCexEnv openingCexSt).1.hoistOnTime = 2800 ∧
    (handleState openingCexEnv openingCexSt).1.pins = pinsHigh ∧
    (handleState openingCexEnv openingCexSt).1.roofState = roofOpening ∧
    (handleState openingCexEnv openingCexSt).1.previousRoofState = roofOpening :=
  opening_tick_pulses_close_pin openingCexEnv openingCexSt
    (by decide) (by decide)

end RoofController
